import Mathlib

/-!
# Verification of the Realtime session bridge

Shallow embedding of the Cloudflare-Worker realtime bridge
(`workers/realtime/src/durable-object.ts`, `workers/realtime/src/tools.ts`,
`shared/src/types.ts`, `shared/src/constants.ts`).

JSON values are modelled by the inductive `JVal`; JavaScript numbers are
modelled as exact rationals (`ℚ`), so arithmetic that in JS runs on binary
floating point is exact here.  `JSON.parse` is modelled by the executable
`jsonParse` and `JSON.stringify` by `jsonStringify`.
-/

set_option autoImplicit false

namespace RealtimeBridge

/-- A JSON value as produced by `JSON.parse`.  Object fields keep insertion
order, mirroring JavaScript objects. -/
inductive JVal where
  | jnull : JVal
  | jbool : Bool → JVal
  | jnum : ℚ → JVal
  | jstr : String → JVal
  | jarr : List JVal → JVal
  | jobj : List (String × JVal) → JVal

/-- JavaScript property access `v[k]` on a non-null value: `none` models
`undefined` (primitives have no such fields; absent object fields are
`undefined`).  Later duplicate keys win, as in JavaScript object literals.
Property access on JSON `null` throws a `TypeError` in JavaScript; the two
places where the bridge dereferences a freshly parsed document model that
throw explicitly via `isNull` and `Eff.uncaughtTypeError`. -/
def jGet (v : JVal) (k : String) : Option JVal :=
  match v with
  | .jobj fields => fields.foldl (fun acc p => if p.1 = k then some p.2 else acc) none
  | _ => none

/-- Whether a parsed document is JSON `null` — the one `JSON.parse` result on
which an unguarded property access throws a `TypeError`. -/
def isNull : JVal → Bool
  | .jnull => true
  | _ => false

/-- JavaScript falsiness of a JSON value (`undefined` is handled by `Option`). -/
def jsFalsy : JVal → Bool
  | .jnull => true
  | .jbool b => !b
  | .jnum q => decide (q = 0)
  | .jstr s => decide (s = "")
  | _ => false

/-- `(v as string) || ""`: the string itself when the field is a string
(empty included), `""` otherwise. -/
def jsOrEmptyStr (v : Option JVal) : String :=
  match v with
  | some (.jstr s) => s
  | _ => ""

/-- Two hexadecimal digits of a byte, for `\u00XX` escapes. -/
def hexByte (n : Nat) : String :=
  let dig := fun (m : Nat) => String.singleton (Nat.digitChar m)
  dig (n / 16 % 16) ++ dig (n % 16)

/-- String-body escaping of `JSON.stringify`. -/
def escapeJsonChars : List Char → String
  | [] => ""
  | c :: r =>
    (if c = '"' then "\\\""
     else if c = '\\' then "\\\\"
     else if c = '\n' then "\\n"
     else if c = '\r' then "\\r"
     else if c = '\t' then "\\t"
     else if c = '\x08' then "\\b"
     else if c = '\x0c' then "\\f"
     else if c.toNat < 32 then "\\u00" ++ hexByte c.toNat
     else String.singleton c) ++ escapeJsonChars r

/-- A JSON string literal with quotes and escapes. -/
def quoteJsonString (s : String) : String :=
  "\"" ++ escapeJsonChars s.data ++ "\""

/-- How many times `p` divides `n` (first argument is fuel). -/
def powDivCount (p : Nat) : Nat → Nat → Nat
  | 0, _ => 0
  | fuel + 1, n => if n % p = 0 && 0 < n then powDivCount p fuel (n / p) + 1 else 0

/-- Decimal rendering of `scaled / 10^k` for an integer `scaled`. -/
def decimalString (scaled : Int) (k : Nat) : String :=
  let sign := if scaled < 0 then "-" else ""
  let digits := (toString scaled.natAbs).data
  let padded := List.replicate (k + 1 - digits.length) '0' ++ digits
  let ip := padded.take (padded.length - k)
  let fp := padded.drop (padded.length - k)
  sign ++ String.mk ip ++ "." ++ String.mk fp

/-- JavaScript rendering of a number.  Exact for every value whose denominator
is of the form `2^a * 5^b` (all values this program ever serializes: parsed
JSON decimals and integers divided by 100); other rationals cannot arise from
`jsonParse` and get a fallback rendering. -/
def numToJsString (q : ℚ) : String :=
  let d := q.den
  if d = 1 then toString q.num
  else
    let a := powDivCount 2 d d
    let b := powDivCount 5 d d
    if 2 ^ a * 5 ^ b = d then
      let k := max a b
      let scaled := q.num * ((10 ^ k) / d : Nat)
      decimalString scaled k
    else toString q.num ++ "/" ++ toString d

mutual

/-- `JSON.stringify` on the JSON value model. -/
def jsonStringify : JVal → String
  | .jnull => "null"
  | .jbool b => if b then "true" else "false"
  | .jnum q => numToJsString q
  | .jstr s => quoteJsonString s
  | .jarr xs => "[" ++ stringifyItems xs ++ "]"
  | .jobj fs => "\x7b" ++ stringifyFields fs ++ "\x7d"

/-- Comma-separated serialization of array items. -/
def stringifyItems : List JVal → String
  | [] => ""
  | [x] => jsonStringify x
  | x :: y :: rest => jsonStringify x ++ "," ++ stringifyItems (y :: rest)

/-- Comma-separated serialization of object fields. -/
def stringifyFields : List (String × JVal) → String
  | [] => ""
  | [(k, v)] => quoteJsonString k ++ ":" ++ jsonStringify v
  | (k, v) :: f :: rest =>
    quoteJsonString k ++ ":" ++ jsonStringify v ++ "," ++ stringifyFields (f :: rest)

end

/-- JSON whitespace. -/
def isJsonWs (c : Char) : Bool :=
  c = ' ' || c = '\t' || c = '\n' || c = '\r'

/-- Skip leading JSON whitespace. -/
def skipWs : List Char → List Char
  | [] => []
  | c :: r => if isJsonWs c then skipWs r else c :: r

/-- Decimal digit test. -/
def isDigitCh (c : Char) : Bool := '0' ≤ c && c ≤ '9'

/-- Digits to a natural number. -/
def digitsToNat (ds : List Char) : Nat :=
  ds.foldl (fun n c => n * 10 + (c.toNat - 48)) 0

/-- Hexadecimal digit value. -/
def hexVal (c : Char) : Option Nat :=
  if '0' ≤ c && c ≤ '9' then some (c.toNat - 48)
  else if 'a' ≤ c && c ≤ 'f' then some (c.toNat - 87)
  else if 'A' ≤ c && c ≤ 'F' then some (c.toNat - 55)
  else none

/-- Parse the body of a JSON string (opening quote already consumed). -/
def parseStringBody : List Char → String → Except String (String × List Char)
  | [], _ => .error "Unterminated string in JSON"
  | '"' :: r, acc => .ok (acc, r)
  | '\\' :: '"' :: r, acc => parseStringBody r (acc.push '"')
  | '\\' :: '\\' :: r, acc => parseStringBody r (acc.push '\\')
  | '\\' :: '/' :: r, acc => parseStringBody r (acc.push '/')
  | '\\' :: 'b' :: r, acc => parseStringBody r (acc.push '\x08')
  | '\\' :: 'f' :: r, acc => parseStringBody r (acc.push '\x0c')
  | '\\' :: 'n' :: r, acc => parseStringBody r (acc.push '\n')
  | '\\' :: 'r' :: r, acc => parseStringBody r (acc.push '\r')
  | '\\' :: 't' :: r, acc => parseStringBody r (acc.push '\t')
  | '\\' :: 'u' :: h1 :: h2 :: h3 :: h4 :: r, acc =>
    match hexVal h1, hexVal h2, hexVal h3, hexVal h4 with
    | some a, some b, some c, some d =>
      parseStringBody r (acc.push (Char.ofNat (((a * 16 + b) * 16 + c) * 16 + d)))
    | _, _, _, _ => .error "Bad Unicode escape in JSON"
  | '\\' :: _, _ => .error "Bad escaped character in JSON"
  | c :: r, acc =>
    if c.toNat < 32 then .error "Bad control character in JSON"
    else parseStringBody r (acc.push c)

/-- Parse a JSON number (grammar of RFC 8259: optional minus, no leading
zeros, optional fraction and exponent).  Exact rational semantics. -/
def parseNumber (cs : List Char) : Except String (ℚ × List Char) :=
  let signed : Bool × List Char :=
    match cs with
    | '-' :: r => (true, r)
    | _ => (false, cs)
  let neg := signed.1
  let cs1 := signed.2
  let intRes : Except String (List Char × List Char) :=
    match cs1 with
    | '0' :: r => .ok (['0'], r)
    | c :: _ =>
      if isDigitCh c then
        let sp := cs1.span isDigitCh
        .ok (sp.1, sp.2)
      else .error "Unexpected character in JSON number"
    | [] => .error "Unexpected end of JSON number"
  match intRes with
  | .error e => .error e
  | .ok (ints, rest1) =>
    let fracRes : Except String (List Char × List Char) :=
      match rest1 with
      | '.' :: r =>
        let sp := r.span isDigitCh
        if sp.1 = [] then .error "Missing digits after decimal point in JSON"
        else .ok (sp.1, sp.2)
      | _ => .ok ([], rest1)
    match fracRes with
    | .error e => .error e
    | .ok (fracs, rest2) =>
      let expRes : Except String (Bool × List Char × List Char) :=
        match rest2 with
        | 'e' :: r | 'E' :: r =>
          let signedE : Bool × List Char :=
            match r with
            | '-' :: r2 => (true, r2)
            | '+' :: r2 => (false, r2)
            | _ => (false, r)
          let sp := signedE.2.span isDigitCh
          if sp.1 = [] then .error "Missing digits in JSON exponent"
          else .ok (signedE.1, sp.1, sp.2)
        | _ => .ok (false, [], rest2)
      match expRes with
      | .error e => .error e
      | .ok (expNeg, exps, rest3) =>
        let mantissa : ℚ :=
          (digitsToNat (ints ++ fracs) : ℚ) / ((10 : ℚ) ^ fracs.length)
        let e := digitsToNat exps
        let scaled : ℚ := if expNeg then mantissa / (10 : ℚ) ^ e else mantissa * (10 : ℚ) ^ e
        .ok ((if neg then -scaled else scaled), rest3)

mutual

/-- Parse one JSON value (fuel-driven; the top-level entry point supplies
more fuel than any input can consume). -/
def parseValue : Nat → List Char → Except String (JVal × List Char)
  | 0, _ => .error "JSON nesting too deep"
  | fuel + 1, cs =>
    match skipWs cs with
    | [] => .error "Unexpected end of JSON input"
    | c :: rest =>
      if c = 'n' then
        match rest with
        | 'u' :: 'l' :: 'l' :: r => .ok (.jnull, r)
        | _ => .error "Unexpected token in JSON"
      else if c = 't' then
        match rest with
        | 'r' :: 'u' :: 'e' :: r => .ok (.jbool true, r)
        | _ => .error "Unexpected token in JSON"
      else if c = 'f' then
        match rest with
        | 'a' :: 'l' :: 's' :: 'e' :: r => .ok (.jbool false, r)
        | _ => .error "Unexpected token in JSON"
      else if c = '"' then
        match parseStringBody rest "" with
        | .error e => .error e
        | .ok (s, r) => .ok (.jstr s, r)
      else if c = '[' then
        match skipWs rest with
        | ']' :: r => .ok (.jarr [], r)
        | cs2 => parseArrayItems fuel cs2 []
      else if c = '\x7b' then
        match skipWs rest with
        | '\x7d' :: r => .ok (.jobj [], r)
        | cs2 => parseObjectFields fuel cs2 []
      else if c = '-' || isDigitCh c then
        match parseNumber (c :: rest) with
        | .error e => .error e
        | .ok (q, r) => .ok (.jnum q, r)
      else .error "Unexpected token in JSON"

/-- Parse the items of a non-empty JSON array. -/
def parseArrayItems : Nat → List Char → List JVal → Except String (JVal × List Char)
  | 0, _, _ => .error "JSON nesting too deep"
  | fuel + 1, cs, acc =>
    match parseValue fuel cs with
    | .error e => .error e
    | .ok (v, r) =>
      match skipWs r with
      | ',' :: r2 => parseArrayItems fuel r2 (acc ++ [v])
      | ']' :: r2 => .ok (.jarr (acc ++ [v]), r2)
      | _ => .error "Expected comma or closing bracket in JSON array"

/-- Parse the fields of a non-empty JSON object. -/
def parseObjectFields : Nat → List Char → List (String × JVal) →
    Except String (JVal × List Char)
  | 0, _, _ => .error "JSON nesting too deep"
  | fuel + 1, cs, acc =>
    match skipWs cs with
    | '"' :: r =>
      match parseStringBody r "" with
      | .error e => .error e
      | .ok (k, r1) =>
        match skipWs r1 with
        | ':' :: r2 =>
          match parseValue fuel r2 with
          | .error e => .error e
          | .ok (v, r3) =>
            match skipWs r3 with
            | ',' :: r4 => parseObjectFields fuel r4 (acc ++ [(k, v)])
            | '\x7d' :: r4 => .ok (.jobj (acc ++ [(k, v)]), r4)
            | _ => .error "Expected comma or closing brace in JSON object"
        | _ => .error "Expected colon in JSON object"
    | _ => .error "Expected string key in JSON object"

end

/-- `JSON.parse`: parse a complete JSON document, rejecting trailing
non-whitespace.  The error string models the JavaScript exception message. -/
def jsonParse (s : String) : Except String JVal :=
  match parseValue (s.data.length + 2) s.data with
  | .error e => .error e
  | .ok (v, rest) =>
    match skipWs rest with
    | [] => .ok v
    | _ => .error "Unexpected non-whitespace character after JSON"

/-! ## Shared constants (`shared/src/types.ts`, `shared/src/constants.ts`) -/

/-- Client → Worker event types that are allowed through
(`ALLOWED_CLIENT_EVENT_TYPES`). -/
def ALLOWED_CLIENT_EVENT_TYPES : List String :=
  ["input_audio_buffer.append",
   "input_audio_buffer.commit",
   "response.cancel",
   "conversation.item.truncate",
   "response.create",
   "conversation.item.create",
   "session.update"]

/-- Global tutor rules prepended to every scenario's system prompt
(`GLOBAL_TUTOR_RULES`). -/
def GLOBAL_TUTOR_RULES : String :=
  "You are a friendly, encouraging language tutor having a real-time voice conversation with a student.\n\nRules:\n- Speak in the target language at the student's level. Use simple vocabulary and short sentences for beginners.\n- If the student makes a mistake, gently correct them and explain briefly.\n- Keep your responses concise — this is a spoken conversation, not a written essay.\n- Encourage the student frequently.\n- Stay in character for the scenario described below.\n- If the student asks to switch topics, politely steer them back to the lesson scenario.\n- Use the provided tools (grade_lesson, trigger_quiz) when appropriate.\n"

/-! ## Tool stubs (`workers/realtime/src/tools.ts`) -/

/-- `typeof x === "number" ? x : 0`: a numeric argument, defaulting to zero. -/
def numOr0 (v : Option JVal) : ℚ :=
  match v with
  | some (.jnum q) => q
  | _ => 0

/-- `Math.round`: round half toward positive infinity. -/
def jsRound (q : ℚ) : ℚ := ((⌊q + 1/2⌋ : ℤ) : ℚ)

/-- `gradeLesson(args)`: average the three sub-scores (absent or non-numeric
values default to zero), round to two decimals, echo the inputs. -/
def gradeLesson (args : JVal) : JVal :=
  let vocabScore := numOr0 (jGet args "vocabulary_score")
  let grammarScore := numOr0 (jGet args "grammar_score")
  let fluencyScore := numOr0 (jGet args "fluency_score")
  let average := (vocabScore + grammarScore + fluencyScore) / 3
  .jobj [("ok", .jbool true),
         ("score", .jnum (jsRound (average * 100) / 100)),
         ("vocabulary_score", .jnum vocabScore),
         ("grammar_score", .jnum grammarScore),
         ("fluency_score", .jnum fluencyScore),
         ("notes", match jGet args "notes" with
                   | some (.jstr n) => .jstr n
                   | _ => .jstr "stub")]

/-- `triggerQuiz(args, scenarioId)`. -/
def triggerQuiz (args : JVal) (scenarioId : String) : JVal :=
  .jobj [("ok", .jbool true),
         ("quiz", .jobj [
            ("lesson_id", match jGet args "lesson_id" with
                          | some (.jstr s) => .jstr s
                          | _ => .jstr scenarioId),
            ("focus", match jGet args "focus" with
                      | some (.jstr s) => .jstr s
                      | _ => .jstr "vocabulary")])]

/-- `executeTool(name, args, scenarioId)`: dispatch by exact name and return
the JSON output string. -/
def executeTool (toolName : String) (args : JVal) (scenarioId : String) : String :=
  let result : JVal :=
    if toolName = "grade_lesson" then gradeLesson args
    else if toolName = "trigger_quiz" then triggerQuiz args scenarioId
    else .jobj [("ok", .jbool false), ("error", .jstr ("Unknown tool: " ++ toolName))]
  jsonStringify result

/-! ## Session state (`workers/realtime/src/durable-object.ts`) -/

/-- Accumulator entry for one streamed tool call:
`{ name, argFragments }`. -/
structure PendingToolCall where
  name : String
  argFragments : List String

/-- One `RealtimeSession` Durable Object.  A connection handle is `none` when
the field is `null`, `some true` when the socket is in the `OPEN` ready state
and `some false` otherwise (the code only ever compares `readyState` against
`OPEN`). -/
structure Session where
  scenarioId : String
  userId : String
  clientWs : Option Bool
  upstreamWs : Option Bool
  pendingToolCalls : List (String × PendingToolCall)

/-- Replace the pending-call map of a session, leaving everything else
untouched. -/
def setPending (s : Session) (p : List (String × PendingToolCall)) : Session :=
  Session.mk s.scenarioId s.userId s.clientWs s.upstreamWs p

/-- Observable outcomes of the bridge's handlers.  `uncaughtTypeError`
records the uncaught JavaScript `TypeError` raised by an unguarded property
access on a parsed `null` document: it aborts the handler, so it is never
accompanied by any send. -/
inductive Eff where
  | upstreamSendRaw : String → Eff
  | upstreamSend : JVal → Eff
  | clientSend : JVal → Eff
  | clientSendBinary : Eff
  | closeUpstream : Nat → String → Eff
  | closeClient : Nat → String → Eff
  | uncaughtTypeError : Eff

/-- `Map.get`. -/
def getEntry (m : List (String × PendingToolCall)) (k : String) : Option PendingToolCall :=
  match m with
  | [] => none
  | p :: r => if p.1 = k then some p.2 else getEntry r k

/-- `Map.set`: update in place, or append a new binding. -/
def setEntry (m : List (String × PendingToolCall)) (k : String) (v : PendingToolCall) :
    List (String × PendingToolCall) :=
  match m with
  | [] => [(k, v)]
  | p :: r => if p.1 = k then (k, v) :: r else p :: setEntry r k v

/-- `Map.delete`. -/
def delEntry (m : List (String × PendingToolCall)) (k : String) :
    List (String × PendingToolCall) :=
  m.filter (fun p => p.1 ≠ k)

/-- `sendUpstream(data)`: sends only while the upstream socket is `OPEN`. -/
def sendUpstream (s : Session) (v : JVal) : List Eff :=
  if s.upstreamWs = some true then [.upstreamSend v] else []

/-- `sendClient(data)`: sends only while the client socket is `OPEN`. -/
def sendClient (s : Session) (v : JVal) : List Eff :=
  if s.clientWs = some true then [.clientSend v] else []

/-- A scenario definition (`shared/src/types.ts`); tool schemas are carried
as opaque JSON values, exactly as the worker treats them. -/
structure Scenario where
  id : String
  level : String
  title : String
  system : String
  opening_line : String
  tools : List JVal

/-! ## Outbound event constructors -/

/-- Synthetic client-bound error event. -/
def errorEvent (msg : String) : JVal :=
  .jobj [("type", .jstr "error"), ("error", .jobj [("message", .jstr msg)])]

/-- The `session.update` configuration event sent on upstream open. -/
def sessionUpdateEvent (scenario : Scenario) : JVal :=
  .jobj [("type", .jstr "session.update"),
         ("session", .jobj [
            ("instructions", .jstr (GLOBAL_TUTOR_RULES ++ "\n\n" ++ scenario.system)),
            ("turn_detection", .jobj [
               ("type", .jstr "server_vad"),
               ("interrupt_response", .jbool true),
               ("create_response", .jbool true)]),
            ("modalities", .jarr [.jstr "audio", .jstr "text"]),
            ("input_audio_format", .jstr "pcm16"),
            ("output_audio_format", .jstr "pcm16"),
            ("tools", .jarr scenario.tools)])]

/-- The opening assistant message event sent on upstream open. -/
def openingItemEvent (scenario : Scenario) : JVal :=
  .jobj [("type", .jstr "conversation.item.create"),
         ("item", .jobj [
            ("type", .jstr "message"),
            ("role", .jstr "assistant"),
            ("content", .jarr [
               .jobj [("type", .jstr "input_text"),
                      ("text", .jstr scenario.opening_line)]])])]

/-- The bare `response.create` event. -/
def responseCreateEvent : JVal :=
  .jobj [("type", .jstr "response.create")]

/-- A `function_call_output` conversation item for a completed tool call. -/
def functionCallOutputEvent (callId output : String) : JVal :=
  .jobj [("type", .jstr "conversation.item.create"),
         ("item", .jobj [
            ("type", .jstr "function_call_output"),
            ("call_id", .jstr callId),
            ("output", .jstr output)])]

/-- The serialized failure result sent when accumulated tool arguments do not
parse. -/
def parseErrorOutput (msg : String) : String :=
  jsonStringify (.jobj [("ok", .jbool false),
                        ("error", .jstr ("Failed to parse tool arguments: " ++ msg))])

/-! ## Bridge handlers -/

/-- `onUpstreamOpen(scenario)`: configuration, opening line, response
request — in this order. -/
def onUpstreamOpen (s : Session) (scenario : Scenario) : List Eff :=
  sendUpstream s (sessionUpdateEvent scenario) ++
  sendUpstream s (openingItemEvent scenario) ++
  sendUpstream s responseCreateEvent

/-- Template-literal display of a JavaScript value, for the whitelist error
message (`${eventType}`); only the string case is ever exercised by the
claims. -/
def jsTemplate : JVal → String
  | .jnull => "null"
  | .jbool b => if b then "true" else "false"
  | .jnum q => numToJsString q
  | .jstr s => s
  | .jarr _ => ""
  | .jobj _ => "[object Object]"

/-- Display of the parsed `type` field in the whitelist error message;
`undefined` when the field is absent. -/
def displayTypeField (tyv : Option JVal) : String :=
  match tyv with
  | none => "undefined"
  | some v => jsTemplate v

/-- Whether a parsed `type` value passes the whitelist membership test. -/
def isAllowedEventVal : JVal → Bool
  | .jstr t => decide (t ∈ ALLOWED_CLIENT_EVENT_TYPES)
  | _ => false

/-- `!eventType || !ALLOWED_CLIENT_EVENT_TYPES.includes(eventType)`. -/
def clientEventRejected (tyv : Option JVal) : Bool :=
  match tyv with
  | none => true
  | some v => jsFalsy v || !(isAllowedEventVal v)

/-- Inbound client payload: a text frame or a binary frame. -/
inductive ClientData where
  | binary : ClientData
  | text : String → ClientData

/-- `handleClientMessage(data)`: the client → upstream relay with the
whitelist.  Only `JSON.parse` is wrapped in try/catch; the subsequent
`parsed.type` access is unguarded, so a message parsing to `null` raises an
uncaught `TypeError` and nothing is sent. -/
def handleClientMessage (s : Session) (d : ClientData) : Session × List Eff :=
  if s.upstreamWs = some true then
    match d with
    | .binary => (s, [])
    | .text raw =>
      match jsonParse raw with
      | .error _ => (s, [])
      | .ok parsed =>
        if isNull parsed then (s, [.uncaughtTypeError])
        else
        let tyv := jGet parsed "type"
        if clientEventRejected tyv then
          (s, sendClient s (errorEvent ("Event type not allowed: " ++ displayTypeField tyv)))
        else
          (s, [.upstreamSendRaw raw])
  else (s, [])

/-- State change of `onToolCallDelta`: create or extend the accumulator entry
for the event's call id. -/
def deltaPendingAfter (pending : List (String × PendingToolCall)) (event : JVal) :
    List (String × PendingToolCall) :=
  match jGet event "call_id", jGet event "delta" with
  | some (.jstr callId), some (.jstr delta) =>
    if callId = "" then pending
    else
      let entry0 : PendingToolCall :=
        match getEntry pending callId with
        | some e => e
        | none => PendingToolCall.mk (jsOrEmptyStr (jGet event "name")) []
      let entry1 : PendingToolCall :=
        match jGet event "name" with
        | some (.jstr n) => if n = "" then entry0 else PendingToolCall.mk n entry0.argFragments
        | _ => entry0
      setEntry pending callId (PendingToolCall.mk entry1.name (entry1.argFragments ++ [delta]))
  | _, _ => pending

/-- `onToolCallDelta(event)`. -/
def onToolCallDelta (s : Session) (event : JVal) : Session :=
  setPending s (deltaPendingAfter s.pendingToolCalls event)

/-- The argument string resolved by `onToolCallDone`: the joined fragments
when an entry exists, else the event's own `arguments` string, else `"\x7b\x7d"`. -/
def doneArgsString (pending : List (String × PendingToolCall)) (event : JVal) : String :=
  match jGet event "call_id" with
  | some (.jstr callId) =>
    match getEntry pending callId with
    | some e => String.join e.argFragments
    | none =>
      match jGet event "arguments" with
      | some (.jstr a) => if a = "" then "\x7b\x7d" else a
      | _ => "\x7b\x7d"
  | _ => ""

/-- The effective tool name resolved by `onToolCallDone`:
`entry?.name || name`. -/
def doneToolName (pending : List (String × PendingToolCall)) (event : JVal) : String :=
  match jGet event "call_id" with
  | some (.jstr callId) =>
    match getEntry pending callId with
    | some e => if e.name = "" then jsOrEmptyStr (jGet event "name") else e.name
    | none => jsOrEmptyStr (jGet event "name")
  | _ => ""

/-- State change of `onToolCallDone`: the entry for the call id is deleted. -/
def donePendingAfter (pending : List (String × PendingToolCall)) (event : JVal) :
    List (String × PendingToolCall) :=
  match jGet event "call_id" with
  | some (.jstr callId) => if callId = "" then pending else delEntry pending callId
  | _ => pending

/-- Messages sent by `onToolCallDone`: on parse failure a failure output and
a continuation; on success the dispatched tool output and a continuation. -/
def doneEffects (s : Session) (event : JVal) : List Eff :=
  match jGet event "call_id" with
  | some (.jstr callId) =>
    if callId = "" then []
    else
      match jsonParse (doneArgsString s.pendingToolCalls event) with
      | .error msg =>
        sendUpstream s (functionCallOutputEvent callId (parseErrorOutput msg)) ++
        sendUpstream s responseCreateEvent
      | .ok args =>
        sendUpstream s
          (functionCallOutputEvent callId
            (executeTool (doneToolName s.pendingToolCalls event) args s.scenarioId)) ++
        sendUpstream s responseCreateEvent
  | _ => []

/-- `onToolCallDone(event)`. -/
def onToolCallDone (s : Session) (event : JVal) : Session × List Eff :=
  (setPending s (donePendingAfter s.pendingToolCalls event), doneEffects s event)

/-- `cleanup()`: close the upstream socket with the normal-closure code when
it is open, null both handles, clear the pending-call map.  Runs on close or
error of the client socket. -/
def cleanup (s : Session) : Session × List Eff :=
  (Session.mk s.scenarioId s.userId none none [],
   if s.upstreamWs = some true then [.closeUpstream 1000 "Client disconnected"] else [])

/-- The upstream `close` listener: forward the upstream close code and reason
to the client when the client socket is open. -/
def onUpstreamClose (s : Session) (code : Nat) (reason : String) : Session × List Eff :=
  (s,
   if s.clientWs = some true then
     [.closeClient code (if reason = "" then "Upstream closed" else reason)]
   else [])

/-! ## Auxiliary observation functions -/

/-- Whether a JSON value is a structured object. -/
def isJsonObject : JVal → Bool
  | .jobj _ => true
  | _ => false

/-- Client-bound effects (sends to the client socket). -/
def isClientEff : Eff → Bool
  | .clientSend _ => true
  | .clientSendBinary => true
  | _ => false

/-- The delta string carried by a fragment event (empty if absent). -/
def jsDeltaOf (e : JVal) : String :=
  match jGet e "delta" with
  | some (.jstr d) => d
  | _ => ""

/-! ## Map lemmas -/

theorem getEntry_setEntry_self (m : List (String × PendingToolCall)) (k : String)
    (v : PendingToolCall) : getEntry (setEntry m k v) k = some v := by
  induction m with
  | nil => simp [setEntry, getEntry]
  | cons p r ih =>
    by_cases h : p.1 = k
    · simp [setEntry, h, getEntry]
    · simp [setEntry, h, getEntry, ih]

theorem getEntry_delEntry_self (m : List (String × PendingToolCall)) (k : String) :
    getEntry (delEntry m k) k = none := by
  induction m with
  | nil => simp [delEntry, getEntry]
  | cons p r ih =>
    by_cases h : p.1 = k
    · simpa [delEntry, h] using ih
    · simpa [delEntry, getEntry, h] using ih

theorem mem_keys_setEntry (m : List (String × PendingToolCall)) (k a : String)
    (v : PendingToolCall) :
    a ∈ (setEntry m k v).map Prod.fst → a ∈ m.map Prod.fst ∨ a = k := by
  induction m with
  | nil =>
    intro h
    simp only [setEntry, List.map_cons, List.map_nil, List.mem_singleton] at h
    right; exact h
  | cons p r ih =>
    intro h
    by_cases hp : p.1 = k
    · simp only [setEntry, if_pos hp, List.map_cons, List.mem_cons] at h
      rcases h with h | h
      · right; exact h
      · left; simp [List.mem_cons, h]
    · simp only [setEntry, if_neg hp, List.map_cons, List.mem_cons] at h
      rcases h with h | h
      · left; simp [List.mem_cons, h]
      · rcases ih h with h2 | h2
        · left; simp [List.mem_cons, h2]
        · right; exact h2

theorem nodup_keys_setEntry (m : List (String × PendingToolCall)) (k : String)
    (v : PendingToolCall) :
    (m.map Prod.fst).Nodup → ((setEntry m k v).map Prod.fst).Nodup := by
  induction m with
  | nil => intro _; simp [setEntry]
  | cons p r ih =>
    intro h
    simp only [List.map_cons, List.nodup_cons] at h
    by_cases hp : p.1 = k
    · simp only [setEntry, if_pos hp, List.map_cons, List.nodup_cons]
      exact ⟨by rw [← hp]; exact h.1, h.2⟩
    · simp only [setEntry, if_neg hp, List.map_cons, List.nodup_cons]
      refine ⟨fun hmem => ?_, ih h.2⟩
      rcases mem_keys_setEntry r k p.1 v hmem with h2 | h2
      · exact h.1 h2
      · exact hp h2

theorem nodup_keys_delEntry (m : List (String × PendingToolCall)) (k : String) :
    (m.map Prod.fst).Nodup → ((delEntry m k).map Prod.fst).Nodup := by
  intro h
  exact h.sublist (List.Sublist.map Prod.fst (List.filter_sublist m))

/-! ## Accumulator lemmas -/

theorem deltaPendingAfter_fresh (m : List (String × PendingToolCall)) (event : JVal)
    (cid d : String)
    (h1 : jGet event "call_id" = some (.jstr cid))
    (h2 : jGet event "delta" = some (.jstr d))
    (hcid : cid ≠ "") (h0 : getEntry m cid = none) :
    deltaPendingAfter m event =
      setEntry m cid (PendingToolCall.mk (jsOrEmptyStr (jGet event "name")) [d]) := by
  simp only [deltaPendingAfter, h1, h2, h0, if_neg hcid]
  cases hn : jGet event "name" with
  | none => simp [jsOrEmptyStr]
  | some v => cases v <;> simp [jsOrEmptyStr]

theorem deltaPendingAfter_existing (m : List (String × PendingToolCall)) (event : JVal)
    (cid d : String) (en : PendingToolCall)
    (h1 : jGet event "call_id" = some (.jstr cid))
    (h2 : jGet event "delta" = some (.jstr d))
    (hcid : cid ≠ "") (h0 : getEntry m cid = some en) :
    ∃ nm, deltaPendingAfter m event =
      setEntry m cid (PendingToolCall.mk nm (en.argFragments ++ [d])) := by
  simp only [deltaPendingAfter, h1, h2, h0, if_neg hcid]
  cases hn : jGet event "name" with
  | none => exact ⟨en.name, rfl⟩
  | some v =>
    cases v with
    | jstr n =>
      by_cases hne : n = ""
      · exact ⟨en.name, by simp [hne]⟩
      · exact ⟨n, by simp [hne]⟩
    | jnull => exact ⟨en.name, rfl⟩
    | jbool b => exact ⟨en.name, rfl⟩
    | jnum q => exact ⟨en.name, rfl⟩
    | jarr xs => exact ⟨en.name, rfl⟩
    | jobj fs => exact ⟨en.name, rfl⟩

theorem pending_foldl_delta (evs : List JVal) (s : Session) :
    (evs.foldl onToolCallDelta s).pendingToolCalls =
      evs.foldl deltaPendingAfter s.pendingToolCalls := by
  induction evs generalizing s with
  | nil => rfl
  | cons e r ih => simp only [List.foldl_cons]; rw [ih]; rfl

theorem getEntry_foldl_deltas_existing (cid : String) (hcid : cid ≠ "")
    (evs : List JVal)
    (hall : ∀ e ∈ evs, jGet e "call_id" = some (.jstr cid) ∧
                        ∃ d, jGet e "delta" = some (.jstr d)) :
    ∀ (m : List (String × PendingToolCall)) (en : PendingToolCall),
      getEntry m cid = some en →
      ∃ nm, getEntry (evs.foldl deltaPendingAfter m) cid =
        some (PendingToolCall.mk nm (en.argFragments ++ evs.map jsDeltaOf)) := by
  induction evs with
  | nil =>
    intro m en h0
    exact ⟨en.name, by simpa using h0⟩
  | cons e r ih =>
    intro m en h0
    obtain ⟨hc, d, hd⟩ := hall e (by simp)
    obtain ⟨nm1, heq⟩ := deltaPendingAfter_existing m e cid d en hc hd hcid h0
    have h1 : getEntry (deltaPendingAfter m e) cid =
        some (PendingToolCall.mk nm1 (en.argFragments ++ [d])) := by
      rw [heq]; exact getEntry_setEntry_self m cid _
    obtain ⟨nm, hfin⟩ := ih (fun x hx => hall x (by simp [hx]))
      (deltaPendingAfter m e) _ h1
    refine ⟨nm, ?_⟩
    simpa [jsDeltaOf, hd, List.append_assoc] using hfin

theorem getEntry_donePendingAfter_self (pending : List (String × PendingToolCall))
    (event : JVal) (cid : String)
    (h1 : jGet event "call_id" = some (.jstr cid)) (hcid : cid ≠ "") :
    getEntry (donePendingAfter pending event) cid = none := by
  simp [donePendingAfter, h1, hcid, getEntry_delEntry_self]

theorem nodup_keys_deltaPendingAfter (pending : List (String × PendingToolCall))
    (event : JVal) (h : (pending.map Prod.fst).Nodup) :
    ((deltaPendingAfter pending event).map Prod.fst).Nodup := by
  unfold deltaPendingAfter
  split
  · split
    · exact h
    · exact nodup_keys_setEntry _ _ _ h
  · exact h

theorem nodup_keys_donePendingAfter (pending : List (String × PendingToolCall))
    (event : JVal) (h : (pending.map Prod.fst).Nodup) :
    ((donePendingAfter pending event).map Prod.fst).Nodup := by
  unfold donePendingAfter
  split
  · split
    · exact h
    · exact nodup_keys_delEntry _ _ h
  · exact h

/-! ## Whitelist lemmas -/

theorem clientEventRejected_of_not_allowed (tyv : Option JVal)
    (h : ∀ t, tyv = some (JVal.jstr t) → t ∉ ALLOWED_CLIENT_EVENT_TYPES) :
    clientEventRejected tyv = true := by
  cases tyv with
  | none => rfl
  | some v =>
    cases v with
    | jstr t => simp [clientEventRejected, isAllowedEventVal, jsFalsy, h t rfl]
    | jnull => rfl
    | jbool b => simp [clientEventRejected, isAllowedEventVal]
    | jnum q => simp [clientEventRejected, isAllowedEventVal]
    | jarr xs => rfl
    | jobj fs => rfl

theorem isNull_eq_false_of_ne (v : JVal) (h : v ≠ JVal.jnull) : isNull v = false := by
  cases v with
  | jnull => exact absurd rfl h
  | jbool b => rfl
  | jnum q => rfl
  | jstr s => rfl
  | jarr xs => rfl
  | jobj fs => rfl

/-! ## Relay lemmas -/

/-- Counterexample to C1 as stated: the client text message `"null"` parses
successfully (to JSON `null`, whose `type` discriminant is certainly not one
of the seven whitelisted strings), yet processing it on an active session
sends no synthetic error event at all — the unguarded `parsed.type` access
raises an uncaught `TypeError` and the handler aborts. -/
theorem client_disallowed_event_single_error_cex :
    jsonParse "null" = .ok .jnull ∧
    handleClientMessage
        (Session.mk "a1_taxi_bogota" "u1" (some true) (some true) [])
        (.text "null") =
      (Session.mk "a1_taxi_bogota" "u1" (some true) (some true) [],
       [.uncaughtTypeError]) ∧
    ((handleClientMessage
        (Session.mk "a1_taxi_bogota" "u1" (some true) (some true) [])
        (.text "null")).2).filter isClientEff = [] :=
  ⟨rfl, rfl, rfl⟩

/-- C1 (amended): a client text message that parses to a non-null document
whose `type` discriminant is not one of the seven whitelisted strings is not
forwarded upstream; the client receives exactly one synthetic `error` event
and the session state — including the pending-call map — is unchanged.  (A
message parsing to JSON `null` instead raises an uncaught `TypeError` and
nothing is sent.) -/
theorem client_disallowed_event_single_error
    (s : Session) (raw : String) (parsed : JVal)
    (hup : s.upstreamWs = some true) (hcl : s.clientWs = some true)
    (hparse : jsonParse raw = .ok parsed)
    (hnn : parsed ≠ JVal.jnull)
    (hty : ∀ t, jGet parsed "type" = some (JVal.jstr t) →
                t ∉ ALLOWED_CLIENT_EVENT_TYPES) :
    handleClientMessage s (.text raw) =
      (s, [.clientSend (errorEvent
            ("Event type not allowed: " ++ displayTypeField (jGet parsed "type")))]) := by
  have hrej := clientEventRejected_of_not_allowed (jGet parsed "type") hty
  simp [handleClientMessage, hup, hparse, isNull_eq_false_of_ne parsed hnn,
    hrej, sendClient, hcl]

/-- Witness for C1: the message `{"type":"nope"}` on an active session
yields exactly one error event and no state change. -/
theorem client_disallowed_event_single_error_witness :
    handleClientMessage (Session.mk "a1_taxi_bogota" "u1" (some true) (some true) [])
        (.text "\x7b\"type\":\"nope\"\x7d") =
      (Session.mk "a1_taxi_bogota" "u1" (some true) (some true) [],
       [.clientSend (errorEvent "Event type not allowed: nope")]) := by
  have hty : ∀ t, jGet (JVal.jobj [("type", JVal.jstr "nope")]) "type" =
      some (JVal.jstr t) → t ∉ ALLOWED_CLIENT_EVENT_TYPES := by
    intro t h
    have h2 : some (JVal.jstr "nope") = some (JVal.jstr t) := h
    injection h2 with h3
    injection h3 with h4
    subst h4
    decide
  exact client_disallowed_event_single_error _ _ (JVal.jobj [("type", JVal.jstr "nope")])
    rfl rfl rfl (by simp) hty

/-- C10: while the upstream socket is absent or not `OPEN`, every
client-originated message — binary, malformed, disallowed or permitted — is
discarded with no effect at all: nothing is forwarded, no synthetic error is
sent, and the session state is unchanged. -/
theorem client_message_dropped_without_open_upstream
    (s : Session) (hup : s.upstreamWs ≠ some true) (d : ClientData) :
    handleClientMessage s d = (s, []) := by
  simp [handleClientMessage, hup]

/-- Witness for C10: a disallowed event arriving while the upstream handle
is `null` is dropped silently. -/
theorem client_message_dropped_without_open_upstream_witness :
    handleClientMessage (Session.mk "a1_taxi_bogota" "u1" (some true) none [])
        (.text "\x7b\"type\":\"bogus\"\x7d") =
      (Session.mk "a1_taxi_bogota" "u1" (some true) none [], []) :=
  client_message_dropped_without_open_upstream _ (by simp) _

/-- C3: for any truthy call id and any non-empty sequence of fragment events
for that id each carrying a string delta, followed by a completion event for
that id, the argument string resolved at completion equals the concatenation
of the delta strings in arrival order; an `arguments` string carried on the
completion event itself is ignored in this case (the completion event is
arbitrary apart from its call id). -/
theorem toolcall_fragment_concat
    (cid : String) (hcid : cid ≠ "")
    (evs : List JVal) (hne : evs ≠ [])
    (hall : ∀ e ∈ evs, jGet e "call_id" = some (.jstr cid) ∧
                        ∃ d, jGet e "delta" = some (.jstr d))
    (s : Session) (h0 : getEntry s.pendingToolCalls cid = none)
    (done : JVal) (hdone : jGet done "call_id" = some (.jstr cid)) :
    doneArgsString (evs.foldl onToolCallDelta s).pendingToolCalls done =
      String.join (evs.map jsDeltaOf) := by
  cases evs with
  | nil => exact absurd rfl hne
  | cons e r =>
    obtain ⟨hc, d, hd⟩ := hall e (by simp)
    have hfresh := deltaPendingAfter_fresh s.pendingToolCalls e cid d hc hd hcid h0
    have h1 : getEntry (deltaPendingAfter s.pendingToolCalls e) cid =
        some (PendingToolCall.mk (jsOrEmptyStr (jGet e "name")) [d]) := by
      rw [hfresh]; exact getEntry_setEntry_self _ _ _
    obtain ⟨nm, hfin⟩ := getEntry_foldl_deltas_existing cid hcid r
        (fun x hx => hall x (by simp [hx]))
        (deltaPendingAfter s.pendingToolCalls e) _ h1
    rw [pending_foldl_delta]
    simp only [List.foldl_cons]
    unfold doneArgsString
    rw [hdone]
    simp [hfin, jsDeltaOf, hd]

/-- Witness for C3: fragments `"ab"`, `"cd"` for call `c1` followed by a
completion event carrying its own (ignored) `arguments` string resolve to
`"abcd"`. -/
theorem toolcall_fragment_concat_witness :
    doneArgsString
      (([JVal.jobj [("type", .jstr "response.function_call_arguments.delta"),
                    ("call_id", .jstr "c1"), ("delta", .jstr "ab"),
                    ("name", .jstr "grade_lesson")],
         JVal.jobj [("type", .jstr "response.function_call_arguments.delta"),
                    ("call_id", .jstr "c1"), ("delta", .jstr "cd")]].foldl
          onToolCallDelta
          (Session.mk "a1_taxi_bogota" "u1" (some true) (some true) [])).pendingToolCalls)
      (JVal.jobj [("call_id", .jstr "c1"), ("arguments", .jstr "IGNORED")]) = "abcd" := by
  have h := toolcall_fragment_concat "c1" (by decide)
    [JVal.jobj [("type", .jstr "response.function_call_arguments.delta"),
                ("call_id", .jstr "c1"), ("delta", .jstr "ab"),
                ("name", .jstr "grade_lesson")],
     JVal.jobj [("type", .jstr "response.function_call_arguments.delta"),
                ("call_id", .jstr "c1"), ("delta", .jstr "cd")]]
    (by simp)
    (by
      intro e he
      simp only [List.mem_cons, List.not_mem_nil, or_false] at he
      rcases he with rfl | rfl
      · exact ⟨rfl, "ab", rfl⟩
      · exact ⟨rfl, "cd", rfl⟩)
    (Session.mk "a1_taxi_bogota" "u1" (some true) (some true) []) rfl
    (JVal.jobj [("call_id", .jstr "c1"), ("arguments", .jstr "IGNORED")]) rfl
  exact h

/-- C4: after a completion event for a truthy call id, the pending map has
no entry for that id; a subsequent fragment event for the same id creates a
fresh entry holding only the new delta (never stale fragments); and both
tool-call handlers preserve distinctness of the call ids of live entries. -/
theorem pending_call_lifecycle :
    (∀ (s : Session) (event : JVal) (cid : String),
       jGet event "call_id" = some (.jstr cid) → cid ≠ "" →
       getEntry ((onToolCallDone s event).1.pendingToolCalls) cid = none) ∧
    (∀ (s : Session) (doneEv deltaEv : JVal) (cid d : String),
       jGet doneEv "call_id" = some (.jstr cid) → cid ≠ "" →
       jGet deltaEv "call_id" = some (.jstr cid) →
       jGet deltaEv "delta" = some (.jstr d) →
       getEntry ((onToolCallDelta (onToolCallDone s doneEv).1 deltaEv).pendingToolCalls)
           cid =
         some (PendingToolCall.mk (jsOrEmptyStr (jGet deltaEv "name")) [d])) ∧
    (∀ (s : Session) (event : JVal),
       (s.pendingToolCalls.map Prod.fst).Nodup →
       ((onToolCallDelta s event).pendingToolCalls.map Prod.fst).Nodup ∧
       ((onToolCallDone s event).1.pendingToolCalls.map Prod.fst).Nodup) := by
  refine ⟨?_, ?_, ?_⟩
  · intro s event cid h1 hcid
    exact getEntry_donePendingAfter_self _ _ _ h1 hcid
  · intro s doneEv deltaEv cid d h1 hcid h2 h3
    have hnone : getEntry ((onToolCallDone s doneEv).1.pendingToolCalls) cid = none :=
      getEntry_donePendingAfter_self _ _ _ h1 hcid
    have hfresh := deltaPendingAfter_fresh
      ((onToolCallDone s doneEv).1.pendingToolCalls) deltaEv cid d h2 h3 hcid hnone
    show getEntry (deltaPendingAfter ((onToolCallDone s doneEv).1.pendingToolCalls)
        deltaEv) cid = _
    rw [hfresh]
    exact getEntry_setEntry_self _ _ _
  · intro s event h
    exact ⟨nodup_keys_deltaPendingAfter _ _ h, nodup_keys_donePendingAfter _ _ h⟩

/-- Witness for C4: completing call `c1` removes its entry, and a later
fragment for `c1` starts over from just the new delta. -/
theorem pending_call_lifecycle_witness :
    getEntry ((onToolCallDone
        (Session.mk "a1_taxi_bogota" "u1" (some true) (some true)
          [("c1", PendingToolCall.mk "grade_lesson" ["\x7b\"a\":1"])])
        (JVal.jobj [("call_id", .jstr "c1")])).1.pendingToolCalls) "c1" = none ∧
    getEntry ((onToolCallDelta
        (onToolCallDone
          (Session.mk "a1_taxi_bogota" "u1" (some true) (some true)
            [("c1", PendingToolCall.mk "grade_lesson" ["\x7b\"a\":1"])])
          (JVal.jobj [("call_id", .jstr "c1")])).1
        (JVal.jobj [("call_id", .jstr "c1"),
                    ("delta", .jstr "\x7b\"b\":2")])).pendingToolCalls) "c1" =
      some (PendingToolCall.mk "" ["\x7b\"b\":2"]) :=
  ⟨pending_call_lifecycle.1 _ (JVal.jobj [("call_id", .jstr "c1")]) "c1" rfl (by decide),
   pending_call_lifecycle.2.1 _ (JVal.jobj [("call_id", .jstr "c1")])
     (JVal.jobj [("call_id", .jstr "c1"), ("delta", .jstr "\x7b\"b\":2")])
     "c1" "\x7b\"b\":2" rfl (by decide) rfl rfl⟩

/-- Counterexample to C5 as stated: the accumulated argument string `"null"`
does not parse as a structured object (it parses as the JSON literal
`null`), yet the bridge still invokes the Tool Dispatcher — the first
upstream message's output is exactly `executeTool`'s result for the resolved
(empty) tool name, the unknown-tool failure, not a parse-error result. -/
theorem toolcall_done_nonobject_parse_cex :
    doneArgsString []
        (JVal.jobj [("type", .jstr "response.function_call_arguments.done"),
                    ("call_id", .jstr "c1"), ("arguments", .jstr "null")]) = "null" ∧
    jsonParse "null" = .ok .jnull ∧
    isJsonObject .jnull = false ∧
    onToolCallDone
        (Session.mk "a1_taxi_bogota" "u1" (some true) (some true) [])
        (JVal.jobj [("type", .jstr "response.function_call_arguments.done"),
                    ("call_id", .jstr "c1"), ("arguments", .jstr "null")]) =
      (Session.mk "a1_taxi_bogota" "u1" (some true) (some true) [],
       [.upstreamSend (functionCallOutputEvent "c1"
          (executeTool "" .jnull "a1_taxi_bogota")),
        .upstreamSend responseCreateEvent]) ∧
    executeTool "" .jnull "a1_taxi_bogota" =
      "\x7b\"ok\":false,\"error\":\"Unknown tool: \"\x7d" ∧
    ("\x7b\"ok\":false,\"error\":\"Failed to parse".data).isPrefixOf
      (executeTool "" .jnull "a1_taxi_bogota").data = false :=
  ⟨rfl, rfl, rfl, rfl, rfl, rfl⟩

/-- C5 (amended): for every completion event for a truthy call id whose
accumulated argument string fails to JSON-parse (the parse attempt raises an
error), the bridge sends upstream exactly two messages in order — a
`function_call_output` item whose output is the serialized parse-failure
`ToolResult`, then a `response.create` continuation — does not invoke the
Tool Dispatcher, and the session keeps both connection handles unchanged
(only the pending entry for that id is removed). -/
theorem toolcall_done_parse_failure
    (s : Session) (event : JVal) (cid msg : String)
    (h1 : jGet event "call_id" = some (.jstr cid)) (hcid : cid ≠ "")
    (hup : s.upstreamWs = some true)
    (hparse : jsonParse (doneArgsString s.pendingToolCalls event) = .error msg) :
    onToolCallDone s event =
      (setPending s (delEntry s.pendingToolCalls cid),
       [.upstreamSend (functionCallOutputEvent cid (parseErrorOutput msg)),
        .upstreamSend responseCreateEvent]) := by
  simp [onToolCallDone, donePendingAfter, doneEffects, h1, hcid, hparse,
    sendUpstream, hup, setPending]

/-- Witness for C5 (amended): accumulated fragments `"not json"` produce the
parse-failure output followed by a continuation request. -/
theorem toolcall_done_parse_failure_witness :
    onToolCallDone
        (Session.mk "a1_taxi_bogota" "u1" (some true) (some true)
          [("c1", PendingToolCall.mk "grade_lesson" ["not json"])])
        (JVal.jobj [("type", .jstr "response.function_call_arguments.done"),
                    ("call_id", .jstr "c1")]) =
      (Session.mk "a1_taxi_bogota" "u1" (some true) (some true) [],
       [.upstreamSend (functionCallOutputEvent "c1"
          (parseErrorOutput "Unexpected token in JSON")),
        .upstreamSend responseCreateEvent]) :=
  toolcall_done_parse_failure _ _ "c1" "Unexpected token in JSON"
    rfl (by decide) rfl rfl

/-- Counterexample to C6 as stated: (a) with a pending entry present whose
recorded name is empty, the effective tool name is taken from the completion
event, not from the entry; (b) a completion event with no pending entry that
carries the empty string as its `arguments` field resolves to `"\x7b\x7d"`, not to
the carried (empty) argument string. -/
theorem toolcall_done_fallback_cex :
    (getEntry [("c1", PendingToolCall.mk "" ["\x7b\x7d"])] "c1" =
       some (PendingToolCall.mk "" ["\x7b\x7d"])) ∧
    (PendingToolCall.mk "" ["\x7b\x7d"]).name = "" ∧
    doneToolName [("c1", PendingToolCall.mk "" ["\x7b\x7d"])]
        (JVal.jobj [("call_id", .jstr "c1"), ("name", .jstr "grade_lesson")]) =
      "grade_lesson" ∧
    ("grade_lesson" : String) ≠ "" ∧
    jGet (JVal.jobj [("call_id", .jstr "c2"), ("arguments", .jstr "")]) "arguments" =
      some (.jstr "") ∧
    doneArgsString [] (JVal.jobj [("call_id", .jstr "c2"), ("arguments", .jstr "")]) =
      "\x7b\x7d" ∧
    ("\x7b\x7d" : String) ≠ "" :=
  ⟨rfl, rfl, rfl, by decide, rfl, rfl, by decide⟩

/-- C6 (amended): for a completion event carrying a call id with no pending
entry, the argument string used is the event's own `arguments` string when
that is a nonempty string and `"\x7b\x7d"` otherwise; the effective tool name
comes from the pending entry when one is present with a nonempty recorded
name, and otherwise from the completion event's `name` field (empty when
absent or not a string). -/
theorem toolcall_done_fallback_resolution
    (pending : List (String × PendingToolCall)) (event : JVal) (cid : String)
    (h1 : jGet event "call_id" = some (.jstr cid)) :
    (getEntry pending cid = none →
       doneArgsString pending event =
         (match jGet event "arguments" with
          | some (.jstr a) => if a = "" then "\x7b\x7d" else a
          | _ => "\x7b\x7d")) ∧
    (∀ en, getEntry pending cid = some en → en.name ≠ "" →
       doneToolName pending event = en.name) ∧
    (∀ en, getEntry pending cid = some en → en.name = "" →
       doneToolName pending event = jsOrEmptyStr (jGet event "name")) ∧
    (getEntry pending cid = none →
       doneToolName pending event = jsOrEmptyStr (jGet event "name")) := by
  refine ⟨?_, ?_, ?_, ?_⟩
  · intro h0
    simp [doneArgsString, h1, h0]
  · intro en h0 hn
    simp [doneToolName, h1, h0, hn]
  · intro en h0 hn
    simp [doneToolName, h1, h0, hn]
  · intro h0
    simp [doneToolName, h1, h0]

/-- Witness for C6 (amended): with no pending entry, a nonempty carried
`arguments` string is used as-is and the name comes from the event. -/
theorem toolcall_done_fallback_resolution_witness :
    doneArgsString []
        (JVal.jobj [("call_id", .jstr "c2"), ("arguments", .jstr "\x7b\"a\":1\x7d"),
                    ("name", .jstr "trigger_quiz")]) = "\x7b\"a\":1\x7d" ∧
    doneToolName []
        (JVal.jobj [("call_id", .jstr "c2"), ("arguments", .jstr "\x7b\"a\":1\x7d"),
                    ("name", .jstr "trigger_quiz")]) = "trigger_quiz" :=
  ⟨(toolcall_done_fallback_resolution []
      (JVal.jobj [("call_id", .jstr "c2"), ("arguments", .jstr "\x7b\"a\":1\x7d"),
                  ("name", .jstr "trigger_quiz")]) "c2" rfl).1 rfl,
   (toolcall_done_fallback_resolution []
      (JVal.jobj [("call_id", .jstr "c2"), ("arguments", .jstr "\x7b\"a\":1\x7d"),
                  ("name", .jstr "trigger_quiz")]) "c2" rfl).2.2.2 rfl⟩

/-- C7: on upstream open on a session whose upstream socket is `OPEN`, the
bridge sends upstream exactly three messages in this order: the
`session.update` configuration (instructions = global tutor rules, two
newlines, the scenario's system prompt; server-VAD turn detection with
interruption and auto-response; modalities audio and text; pcm16 input and
output formats; the scenario's tool schemas), the `conversation.item.create`
assistant message carrying the scenario's opening line, and a bare
`response.create`. -/
theorem upstream_open_handshake (s : Session) (scenario : Scenario)
    (hup : s.upstreamWs = some true) :
    onUpstreamOpen s scenario =
      [.upstreamSend (.jobj [("type", .jstr "session.update"),
         ("session", .jobj [
            ("instructions", .jstr (GLOBAL_TUTOR_RULES ++ "\n\n" ++ scenario.system)),
            ("turn_detection", .jobj [("type", .jstr "server_vad"),
               ("interrupt_response", .jbool true), ("create_response", .jbool true)]),
            ("modalities", .jarr [.jstr "audio", .jstr "text"]),
            ("input_audio_format", .jstr "pcm16"),
            ("output_audio_format", .jstr "pcm16"),
            ("tools", .jarr scenario.tools)])]),
       .upstreamSend (.jobj [("type", .jstr "conversation.item.create"),
         ("item", .jobj [("type", .jstr "message"), ("role", .jstr "assistant"),
            ("content", .jarr [.jobj [("type", .jstr "input_text"),
               ("text", .jstr scenario.opening_line)]])])]),
       .upstreamSend (.jobj [("type", .jstr "response.create")])] := by
  simp [onUpstreamOpen, sendUpstream, hup, sessionUpdateEvent, openingItemEvent,
    responseCreateEvent]

/-- Witness for C7: the handshake of a concrete scenario. -/
theorem upstream_open_handshake_witness :
    onUpstreamOpen (Session.mk "a1_taxi_bogota" "u1" (some true) (some true) [])
        (Scenario.mk "a1_taxi_bogota" "A1" "Taxi" "Eres un taxista." "¡Hola!" []) =
      [.upstreamSend (.jobj [("type", .jstr "session.update"),
         ("session", .jobj [
            ("instructions", .jstr (GLOBAL_TUTOR_RULES ++ "\n\n" ++ "Eres un taxista.")),
            ("turn_detection", .jobj [("type", .jstr "server_vad"),
               ("interrupt_response", .jbool true), ("create_response", .jbool true)]),
            ("modalities", .jarr [.jstr "audio", .jstr "text"]),
            ("input_audio_format", .jstr "pcm16"),
            ("output_audio_format", .jstr "pcm16"),
            ("tools", .jarr [])])]),
       .upstreamSend (.jobj [("type", .jstr "conversation.item.create"),
         ("item", .jobj [("type", .jstr "message"), ("role", .jstr "assistant"),
            ("content", .jarr [.jobj [("type", .jstr "input_text"),
               ("text", .jstr "¡Hola!")]])])]),
       .upstreamSend (.jobj [("type", .jstr "response.create")])] :=
  upstream_open_handshake _ _ rfl

/-- Counterexample to C8 as stated: when the upstream socket closes with the
abnormal code 1011, the client socket is closed with that same code 1011 —
not with the normal-closure code — and the upstream-close handler leaves the
pending-call map untouched (its release happens only in `cleanup`, which
runs on the client socket's close or error). -/
theorem connection_close_forwarding_cex :
    onUpstreamClose
        (Session.mk "a1_taxi_bogota" "u1" (some true) none
          [("c1", PendingToolCall.mk "grade_lesson" ["\x7b"])]) 1011 "" =
      (Session.mk "a1_taxi_bogota" "u1" (some true) none
          [("c1", PendingToolCall.mk "grade_lesson" ["\x7b"])],
       [.closeClient 1011 "Upstream closed"]) ∧
    (1011 : Nat) ≠ 1000 ∧
    (onUpstreamClose
        (Session.mk "a1_taxi_bogota" "u1" (some true) none
          [("c1", PendingToolCall.mk "grade_lesson" ["\x7b"])]) 1011
        "").1.pendingToolCalls =
      [("c1", PendingToolCall.mk "grade_lesson" ["\x7b"])] ∧
    ([("c1", PendingToolCall.mk "grade_lesson" ["\x7b"])] :
        List (String × PendingToolCall)) ≠ [] :=
  ⟨rfl, by decide, rfl, by simp⟩

/-- C8 (amended): when the client socket closes or errors, `cleanup` nulls
both handles, clears the pending-call map (no partial state persists) and —
when the upstream socket is open — closes it with normal-closure code 1000;
when the upstream socket closes, the open client socket is closed with the
upstream's own close code and reason (the fixed reason `"Upstream closed"`
when the upstream reason is empty), pending state being released by the
client-side `cleanup` this triggers. -/
theorem connection_close_behavior (s : Session) (code : Nat) (reason : String) :
    (cleanup s).1.pendingToolCalls = [] ∧
    (cleanup s).1.clientWs = none ∧
    (cleanup s).1.upstreamWs = none ∧
    (s.upstreamWs = some true →
       (cleanup s).2 = [.closeUpstream 1000 "Client disconnected"]) ∧
    (s.clientWs = some true →
       onUpstreamClose s code reason =
         (s, [.closeClient code (if reason = "" then "Upstream closed" else reason)])) := by
  refine ⟨rfl, rfl, rfl, fun h => ?_, fun h => ?_⟩
  · simp [cleanup, h]
  · simp [onUpstreamClose, h]

/-- Witness for C8 (amended): a concrete teardown in each direction. -/
theorem connection_close_behavior_witness :
    (cleanup (Session.mk "a1_taxi_bogota" "u1" (some true) (some true)
        [("c1", PendingToolCall.mk "t" ["x"])])).2 =
      [.closeUpstream 1000 "Client disconnected"] ∧
    onUpstreamClose
        (Session.mk "a1_taxi_bogota" "u1" (some true) (some true)
          [("c1", PendingToolCall.mk "t" ["x"])]) 1005 "" =
      (Session.mk "a1_taxi_bogota" "u1" (some true) (some true)
          [("c1", PendingToolCall.mk "t" ["x"])],
       [.closeClient 1005 "Upstream closed"]) :=
  ⟨(connection_close_behavior (Session.mk "a1_taxi_bogota" "u1" (some true) (some true)
      [("c1", PendingToolCall.mk "t" ["x"])]) 1005 "").2.2.2.1 rfl,
   (connection_close_behavior (Session.mk "a1_taxi_bogota" "u1" (some true) (some true)
      [("c1", PendingToolCall.mk "t" ["x"])]) 1005 "").2.2.2.2 rfl⟩

/-- C9: for every argument object the grading tool returns `ok: true`,
echoes the three numeric sub-scores (each defaulting to zero when absent or
non-numeric), sets `score` to their arithmetic mean rounded to two decimal
places, and passes a string `notes` argument through; in particular
sub-scores 8, 7 and 9 yield score exactly 8. -/
theorem gradeLesson_mean_and_echo (args : JVal) :
    jGet (gradeLesson args) "ok" = some (.jbool true) ∧
    jGet (gradeLesson args) "score" =
      some (.jnum (jsRound ((numOr0 (jGet args "vocabulary_score") +
        numOr0 (jGet args "grammar_score") +
        numOr0 (jGet args "fluency_score")) / 3 * 100) / 100)) ∧
    jGet (gradeLesson args) "vocabulary_score" =
      some (.jnum (numOr0 (jGet args "vocabulary_score"))) ∧
    jGet (gradeLesson args) "grammar_score" =
      some (.jnum (numOr0 (jGet args "grammar_score"))) ∧
    jGet (gradeLesson args) "fluency_score" =
      some (.jnum (numOr0 (jGet args "fluency_score"))) ∧
    jGet (gradeLesson args) "notes" =
      some (match jGet args "notes" with
            | some (.jstr n) => .jstr n
            | _ => .jstr "stub") ∧
    jGet (gradeLesson (.jobj [("vocabulary_score", .jnum 8), ("grammar_score", .jnum 7),
        ("fluency_score", .jnum 9)])) "score" = some (.jnum 8) := by
  refine ⟨rfl, rfl, rfl, rfl, rfl, rfl, ?_⟩
  have h : jGet (gradeLesson (.jobj [("vocabulary_score", .jnum 8),
      ("grammar_score", .jnum 7), ("fluency_score", .jnum 9)])) "score" =
      some (.jnum (jsRound (((8 : ℚ) + 7 + 9) / 3 * 100) / 100)) := rfl
  rw [h]
  simp only [Option.some.injEq, JVal.jnum.injEq]
  norm_num [jsRound]

end RealtimeBridge
